import Mathlib

/-!
Shallow embedding of the websocket Client of `core/websocket/client.go`
(package `websocket` of gophrame): the data model (`Client`, the transport
`Conn`, configuration), the connection establishment `OnOpen`, the send
primitive `SendMessage`, the read loop `ReadPump`, the heartbeat loop
`Heartbeat` and its pong handler, together with a small interleaved system
model for the Hub membership invariant.

Go machine integers are modelled as `Int` (durations are `time.Duration`,
i.e. nanosecond counts; `HeartbeatFailTimes` is a Go `int`); the `uint8`
state flag is a `Nat` that only ever holds 0 or 1.  Fallible transport
operations (`SetWriteDeadline`, `WriteMessage`, `ReadMessage`) are driven
by explicit oracles so that every failure path of the source is reachable
in the model.
-/

namespace Gophrame.Websocket

/-- Errors surfaced by the websocket layer: the synthetic state-invalid
error built by `errors.New(ErrorsWebsocketStateInvalid)` in `ReadPump`,
and opaque transport-level errors (upgrade, deadline, read, write). -/
inductive GoError where
  | stateInvalid
  | transport (code : Nat)
deriving DecidableEq, Repr

/-- Constant `time.Second` in nanoseconds. -/
def second : Int := 1000000000

/-- Constant `time.Nanosecond` in nanoseconds. -/
def nanosecond : Int := 1

/-- Constant `websocket.TextMessage` of the gorilla websocket package. -/
def TextMessage : Int := 1

/-- Constant `websocket.PingMessage` of the gorilla websocket package. -/
def PingMessage : Int := 9

/-- The fixed handshake acknowledgement payload `WebsocketHandshakeSuccess`. -/
def WebsocketHandshakeSuccess : String :=
  "\x7b\"code\":2000,\"msg\":\"ws connect ok\",\"data\":\"\"\x7d"

/-- The fixed ping payload `WebsocketServerPingMsg`. -/
def WebsocketServerPingMsg : String := "Server->Ping->Client"

/-- Struct `ClientMoreParams`: opaque application metadata attached to a Client. -/
structure ClientMoreParams where
  userParams1 : String
  userParams2 : String
deriving DecidableEq, Repr

/-- The observable state of one `*websocket.Conn` transport: its write/read
deadlines (`none` = no deadline), the configured read-size limit, and the
sequence of frames successfully written (message type, payload). -/
structure Conn where
  writeDeadline : Option Int
  readDeadline : Option Int
  readLimit : Option Int
  frames : List (Int × String)
deriving DecidableEq, Repr

/-- A freshly upgraded transport: no deadlines, no limit, nothing written. -/
def freshConn : Conn := ⟨none, none, none, []⟩

/-- The `Client` struct: Hub reference (modelled as whether the global hub
assertion succeeded), the `Send` channel (modelled as `none` = nil,
`some cap` = allocated with capacity `cap`), the three durations, the
heartbeat failure counter, the `uint8` state flag (1 = ok, 0 = closed),
and the embedded application metadata. -/
structure Client where
  Hub : Bool
  Send : Option Nat
  PingPeriod : Int
  ReadDeadline : Int
  WriteDeadline : Int
  HeartbeatFailTimes : Int
  State : Nat
  params : ClientMoreParams
deriving DecidableEq, Repr

/-- The websocket configuration surface `config.Setting` (seconds / counts
as they appear in the config file). -/
structure Config where
  BufferSize : Nat
  PingPeriod : Nat
  ReadDeadline : Nat
  WriteDeadline : Nat
  HeartbeatFailMaxTimes : Int
  MaxMessageSize : Nat
deriving DecidableEq, Repr

/-- Oracle deciding the outcome of one `SendMessage` call: whether
`Conn.SetWriteDeadline` fails, and whether `Conn.WriteMessage` fails. -/
structure WriteOracle where
  setDeadlineErr : Option GoError
  writeErr : Option GoError
deriving DecidableEq, Repr

/-- A `WriteOracle` on which the send succeeds. -/
def okPing : WriteOracle := ⟨none, none⟩

/-- A `WriteOracle` on which the transport write fails. -/
def failPing : WriteOracle := ⟨none, some (.transport 0)⟩

/-- Method `Client.SendMessage` (client.go:123-138): under the client's write
lock, set a write deadline of `now + c.WriteDeadline`; on failure return
that error without writing; otherwise write the frame and return the
transport's write error, or `nil` on success.  Returns the (unchanged)
client, the transport after the call, and the returned error. -/
def Client.SendMessage (c : Client) (conn : Conn) (now : Int)
    (o : WriteOracle) (messageType : Int) (message : String) :
    Client × Conn × Option GoError :=
  match o.setDeadlineErr with
  | some e => (c, conn, some e)
  | none =>
    let conn1 : Conn := { conn with writeDeadline := some (now + c.WriteDeadline) }
    match o.writeErr with
    | some e => (c, conn1, some e)
    | none =>
      (c, { conn1 with frames := conn1.frames ++ [(messageType, message)] }, none)

/-- The pong handler installed by `Client.Heartbeat` (client.go:159-167):
on a received pong, if `c.ReadDeadline > time.Nanosecond` reset the read
deadline to `now + c.ReadDeadline`, otherwise disable it
(`SetReadDeadline(time.Time{})`). -/
def pongHandler (now : Int) (readDeadlineDur : Int) (conn : Conn) : Conn :=
  if readDeadlineDur > nanosecond then
    { conn with readDeadline := some (now + readDeadlineDur) }
  else
    { conn with readDeadline := none }

/-- Oracle deciding the outcome of one `OnOpen` call: whether the protocol
upgrade fails, and how the handshake-acknowledgement `SendMessage` fares. -/
structure UpgradeOracle where
  upgradeErr : Option GoError
  handshakeWrite : WriteOracle
deriving DecidableEq, Repr

/-- Result of `OnOpen`: returned client pointer (`none` = nil), the `bool`
second return, the upgraded transport if any, and the length of the Hub's
registration queue after the call. -/
structure OnOpenResult where
  client : Option Client
  ok : Bool
  conn : Option Conn
  registerCount : Nat
deriving DecidableEq, Repr

/-- Method `Client.OnOpen` (client.go:44-85): upgrade the request; on failure log
and return `(nil, false)`.  On success set the Hub reference, allocate
`Send` with capacity `BufferSize`, initialise the three durations from
configuration (seconds scaled to `time.Duration`), attempt to send the
handshake acknowledgement (a write failure is only logged), set the read
limit, enqueue the client on `Hub.Register`, set `State = 1`, and return
`(c, true)`.  `registerCount` is the registration-queue length before the
call. -/
def Client.OnOpen (c : Client) (cfg : Config) (now : Int) (o : UpgradeOracle)
    (registerCount : Nat) : OnOpenResult :=
  match o.upgradeErr with
  | some _ => ⟨none, false, none, registerCount⟩
  | none =>
    let c1 : Client :=
      { c with Hub := true,
               Send := some cfg.BufferSize,
               PingPeriod := second * cfg.PingPeriod,
               ReadDeadline := second * cfg.ReadDeadline,
               WriteDeadline := second * cfg.WriteDeadline }
    let sent := c1.SendMessage freshConn now o.handshakeWrite TextMessage
      WebsocketHandshakeSuccess
    let conn2 : Conn := { sent.2.1 with readLimit := some cfg.MaxMessageSize }
    ⟨some { sent.1 with State := 1 }, true, some conn2, registerCount + 1⟩

/-- Result of one iteration of the heartbeat `for`/`select` loop. -/
structure HBStep where
  client : Client
  conn : Conn
  looping : Bool
  pings : Nat
deriving DecidableEq, Repr

/-- One tick of `Client.Heartbeat` (client.go:169-191): if `State == 1`,
send a ping via `SendMessage`; on error increment `HeartbeatFailTimes`
and, when it exceeds `maxFail` (`config.Setting.HeartbeatFailMaxTimes`),
set `State = 0` and exit the loop; on success decrement the counter when
it is positive.  If `State != 1` the loop exits without sending. -/
def heartbeatTick (maxFail now : Int) (c : Client) (conn : Conn)
    (o : WriteOracle) : HBStep :=
  if c.State = 1 then
    let sent := c.SendMessage conn now o PingMessage WebsocketServerPingMsg
    match sent.2.2 with
    | some _ =>
      let c2 : Client := { sent.1 with HeartbeatFailTimes := sent.1.HeartbeatFailTimes + 1 }
      if c2.HeartbeatFailTimes > maxFail then
        ⟨{ c2 with State := 0 }, sent.2.1, false, 1⟩
      else
        ⟨c2, sent.2.1, true, 1⟩
    | none =>
      if sent.1.HeartbeatFailTimes > 0 then
        ⟨{ sent.1 with HeartbeatFailTimes := sent.1.HeartbeatFailTimes - 1 }, sent.2.1, true, 1⟩
      else
        ⟨sent.1, sent.2.1, true, 1⟩
  else
    ⟨c, conn, false, 0⟩

/-- Accumulated result of a run of the heartbeat loop. -/
structure HBRun where
  client : Client
  conn : Conn
  pings : Nat
deriving DecidableEq, Repr

/-- Run the heartbeat loop over a list of tick oracles (one per timer
fire); the loop stops consuming ticks as soon as an iteration exits.
`pings` counts the ping sends attempted. -/
def heartbeatRun (maxFail now : Int) (c : Client) (conn : Conn) :
    List WriteOracle → HBRun
  | [] => ⟨c, conn, 0⟩
  | o :: rest =>
    let s := heartbeatTick maxFail now c conn o
    if s.looping then
      let r := heartbeatRun maxFail now s.client s.conn rest
      ⟨r.client, r.conn, s.pings + r.pings⟩
    else
      ⟨s.client, s.conn, s.pings⟩

/-- Outcome of one `Conn.ReadMessage` call: a frame, or a read error. -/
inductive ReadResult where
  | frame (mt : Int) (data : String)
  | readErr (e : GoError)
deriving DecidableEq, Repr

/-- Input driving one iteration of the `ReadPump` loop: the value of
`c.State == 1` observed at the top of the iteration, the outcome of
`ReadMessage` (consulted only when active), whether `ReadMessage` panics,
and whether the callback invoked in this iteration panics. -/
structure RPInput where
  stateActive : Bool
  read : ReadResult
  readPanics : Bool
  callbackPanics : Bool
deriving DecidableEq, Repr

/-- Observable callback events of `ReadPump`. -/
inductive Event where
  | onMessage (mt : Int) (data : String)
  | onError (e : GoError)
  | onClose
deriving DecidableEq, Repr

/-- How the `for` loop of `ReadPump` ended: it broke out normally, a panic
was raised inside it, or the given input trace ran out while the loop was
still going (the deferred handler has not run yet). -/
inductive LoopExit where
  | terminated
  | panicked
  | pending
deriving DecidableEq, Repr

/-- The `for` loop of `Client.ReadPump` (client.go:101-117), run over a
trace of iteration inputs: while `State == 1`, read one frame and invoke
`callbackOnMessage` synchronously; on read error invoke `callbackOnError`
and break; if `State != 1` invoke `callbackOnError` with the state-invalid
error and break.  Returns the callback events emitted by the loop body and
how the loop ended. -/
def readLoop : List RPInput → List Event × LoopExit
  | [] => ([], .pending)
  | i :: rest =>
    if i.stateActive then
      if i.readPanics then ([], .panicked)
      else
        match i.read with
        | .frame mt d =>
          if i.callbackPanics then ([.onMessage mt d], .panicked)
          else
            let r := readLoop rest
            (.onMessage mt d :: r.1, r.2)
        | .readErr e =>
          if i.callbackPanics then ([.onError e], .panicked)
          else ([.onError e], .terminated)
    else
      if i.callbackPanics then ([.onError .stateInvalid], .panicked)
      else ([.onError .stateInvalid], .terminated)

/-- Method `Client.ReadPump` (client.go:88-118): run the loop; once the loop ends
— by break or by a panic, which the deferred `recover()` catches and logs
without re-raising — the deferred handler invokes `callbackOnClose()`.
On a `pending` trace the deferred handler has not run, so no `onClose` is
emitted yet. -/
def ReadPump (inputs : List RPInput) : List Event × LoopExit :=
  let r := readLoop inputs
  match r.2 with
  | .pending => (r.1, .pending)
  | e => (r.1 ++ [.onClose], e)

/-- A non-panicking active iteration that reads the frame `p`. -/
def frameInput (p : Int × String) : RPInput := ⟨true, .frame p.1 p.2, false, false⟩

/-- A non-panicking active iteration whose read fails with `e`. -/
def errInput (e : GoError) : RPInput := ⟨true, .readErr e, false, false⟩

/-- One step of any of the Client's loops, for the state-transition claim:
a heartbeat tick, a read-loop iteration (which only reads `c.State` and
the transport, never writes a Client field), a `SendMessage` call, or the
pong handler firing. -/
inductive StepInput where
  | hbTick (o : WriteOracle)
  | readIter
  | send (o : WriteOracle) (mt : Int) (msg : String)
  | pong
deriving DecidableEq, Repr

/-- Apply one loop step to the pair (client, transport). -/
def clientStep (maxFail now : Int) (s : Client × Conn) : StepInput → Client × Conn
  | .hbTick o =>
    let r := heartbeatTick maxFail now s.1 s.2 o
    (r.client, r.conn)
  | .readIter => s
  | .send o mt msg =>
    let r := s.1.SendMessage s.2 now o mt msg
    (r.1, r.2.1)
  | .pong => (s.1, pongHandler now s.1.ReadDeadline s.2)

/-- Run a list of loop steps. -/
def runSteps (maxFail now : Int) (s : Client × Conn) : List StepInput → Client × Conn
  | [] => s
  | i :: rest => runSteps maxFail now (clientStep maxFail now s i) rest

/-- The trajectory of `State` values along a run (initial state included). -/
def stateTraj (maxFail now : Int) (s : Client × Conn) : List StepInput → List Nat
  | [] => [s.1.State]
  | i :: rest => s.1.State :: stateTraj maxFail now (clientStep maxFail now s i) rest

/-- Number of Active→Closed transitions (adjacent `1, 0` pairs) in a
trajectory of `State` values. -/
def activeToClosed : List Nat → Nat
  | a :: b :: rest => (if a = 1 ∧ b = 0 then 1 else 0) + activeToClosed (b :: rest)
  | _ => 0

/-- Joint state of one Client and the Hub's registry, for the membership
invariant: the client's `State` and heartbeat counter, the numbers of
pending (enqueued, unprocessed) registration and unregistration requests
for this client, membership of the client in the Hub's `clients` set, and
whether the Hub has completed this client's registration respectively
unregistration. -/
structure SysState where
  clientState : Nat
  hbFail : Int
  regPending : Nat
  unregPending : Nat
  inClients : Bool
  registered : Bool
  unregistered : Bool
deriving DecidableEq, Repr

/-- Events of the joint Client/Hub system.  `enqueueRegister` and
`setActive` are client.go:80 and client.go:81 of `OnOpen`, in that program
order; `hbTick` is one heartbeat iteration; `enqueueUnregister` is the
unregistration submitted on the close path.  `hubProcessRegister` and
`hubProcessUnregister` are the Hub's registry actor.  Modelled from the
spec: the Hub's processing loop is not part of the sources under study; per
the spec it serially consumes the registration/unregistration queues,
adding the client to `clients` respectively removing it. -/
inductive SysEvent where
  | enqueueRegister
  | setActive
  | hubProcessRegister
  | hbTick (pingOk : Bool)
  | enqueueUnregister
  | hubProcessUnregister
deriving DecidableEq, Repr

/-- One step of the joint Client/Hub system. -/
def sysStep (maxFail : Int) (s : SysState) : SysEvent → SysState
  | .enqueueRegister => { s with regPending := s.regPending + 1 }
  | .setActive => { s with clientState := 1 }
  | .hubProcessRegister =>
    if s.regPending > 0 then
      { s with regPending := s.regPending - 1, inClients := true, registered := true }
    else s
  | .hbTick pingOk =>
    if s.clientState = 1 then
      if pingOk then
        if s.hbFail > 0 then { s with hbFail := s.hbFail - 1 } else s
      else
        if s.hbFail + 1 > maxFail then
          { s with hbFail := s.hbFail + 1, clientState := 0 }
        else
          { s with hbFail := s.hbFail + 1 }
    else s
  | .enqueueUnregister => { s with unregPending := s.unregPending + 1 }
  | .hubProcessUnregister =>
    if s.unregPending > 0 then
      { s with unregPending := s.unregPending - 1, inClients := false, unregistered := true }
    else s

/-- Run the joint system over a list of events. -/
def sysRun (maxFail : Int) (s : SysState) : List SysEvent → SysState
  | [] => s
  | e :: rest => sysRun maxFail (sysStep maxFail s e) rest

/-- The joint state before `OnOpen` runs: state flag 0, counter 0, empty
queues, not a member, nothing completed. -/
def sysInit : SysState := ⟨0, 0, 0, 0, false, false, false⟩

/-- A sample client used by concrete witnesses. -/
def cSample : Client := ⟨true, some 4, second * 20, second * 60, second * 35, 0, 1, ⟨"a", "b"⟩⟩

/-- A sample transport used by concrete witnesses. -/
def connSample : Conn := ⟨none, none, some 2048, [(1, "x")]⟩

/-- Claim C5: `SendMessage` first sets a write deadline of `WriteDeadline`;
if setting the deadline fails it returns that error and writes nothing to
the transport; otherwise it writes the frame and returns the transport's
write error verbatim on failure and nil on success. -/
theorem C5_sendMessage_deadline_then_write (c : Client) (conn : Conn)
    (now : Int) (o : WriteOracle) (mt : Int) (msg : String) :
    (∀ e, o.setDeadlineErr = some e →
      c.SendMessage conn now o mt msg = (c, conn, some e))
    ∧ (o.setDeadlineErr = none →
      (c.SendMessage conn now o mt msg).2.1.writeDeadline
          = some (now + c.WriteDeadline)
      ∧ (∀ e, o.writeErr = some e →
          c.SendMessage conn now o mt msg
            = (c, { conn with writeDeadline := some (now + c.WriteDeadline) },
               some e))
      ∧ (o.writeErr = none →
          c.SendMessage conn now o mt msg
            = (c, { conn with
                      writeDeadline := some (now + c.WriteDeadline)
                      frames := conn.frames ++ [(mt, msg)] }, none))) := by
  constructor
  · intro e he
    simp [Client.SendMessage, he]
  · intro hd
    refine ⟨?_, ?_, ?_⟩
    · cases hw : o.writeErr <;> simp [Client.SendMessage, hd, hw]
    · intro e he
      simp [Client.SendMessage, hd, he]
    · intro hw
      simp [Client.SendMessage, hd, hw]

/-- Witness for C5 at concrete inputs: a failing deadline call, a failing
write, and a successful write. -/
theorem C5_sendMessage_witness :
    cSample.SendMessage connSample 5 ⟨some (.transport 7), none⟩ 1 "m"
        = (cSample, connSample, some (.transport 7))
    ∧ cSample.SendMessage connSample 5 ⟨none, some (.transport 9)⟩ 1 "m"
        = (cSample, { connSample with
            writeDeadline := some (5 + cSample.WriteDeadline) },
           some (.transport 9))
    ∧ cSample.SendMessage connSample 5 ⟨none, none⟩ 1 "m"
        = (cSample, { connSample with
                        writeDeadline := some (5 + cSample.WriteDeadline)
                        frames := connSample.frames ++ [(1, "m")] }, none) :=
  ⟨(C5_sendMessage_deadline_then_write cSample connSample 5
      ⟨some (.transport 7), none⟩ 1 "m").1 (.transport 7) rfl,
   ((C5_sendMessage_deadline_then_write cSample connSample 5
      ⟨none, some (.transport 9)⟩ 1 "m").2 rfl).2.1 (.transport 9) rfl,
   ((C5_sendMessage_deadline_then_write cSample connSample 5
      ⟨none, none⟩ 1 "m").2 rfl).2.2 rfl⟩

/-- Claim C10: `SendMessage` modifies no field of the Client — state,
failure counter, durations, outbox, Hub reference and metadata are all
unchanged — and its only transport effects are setting the write deadline
and possibly appending one frame (read deadline and read limit untouched). -/
theorem C10_sendMessage_frame_effect (c : Client) (conn : Conn) (now : Int)
    (o : WriteOracle) (mt : Int) (msg : String) :
    (c.SendMessage conn now o mt msg).1 = c
    ∧ (c.SendMessage conn now o mt msg).1.State = c.State
    ∧ (c.SendMessage conn now o mt msg).1.HeartbeatFailTimes = c.HeartbeatFailTimes
    ∧ (c.SendMessage conn now o mt msg).1.PingPeriod = c.PingPeriod
    ∧ (c.SendMessage conn now o mt msg).1.ReadDeadline = c.ReadDeadline
    ∧ (c.SendMessage conn now o mt msg).1.WriteDeadline = c.WriteDeadline
    ∧ (c.SendMessage conn now o mt msg).1.Send = c.Send
    ∧ (c.SendMessage conn now o mt msg).1.Hub = c.Hub
    ∧ (c.SendMessage conn now o mt msg).1.params = c.params
    ∧ (c.SendMessage conn now o mt msg).2.1.readDeadline = conn.readDeadline
    ∧ (c.SendMessage conn now o mt msg).2.1.readLimit = conn.readLimit
    ∧ ((c.SendMessage conn now o mt msg).2.1.frames = conn.frames
       ∨ (c.SendMessage conn now o mt msg).2.1.frames
           = conn.frames ++ [(mt, msg)])
    ∧ ((c.SendMessage conn now o mt msg).2.1.writeDeadline = conn.writeDeadline
       ∨ (c.SendMessage conn now o mt msg).2.1.writeDeadline
           = some (now + c.WriteDeadline)) := by
  cases hd : o.setDeadlineErr with
  | some e => simp [Client.SendMessage, hd]
  | none =>
    cases hw : o.writeErr with
    | some e => simp [Client.SendMessage, hd, hw]
    | none => simp [Client.SendMessage, hd, hw]

/-- Claim C9: the pong handler resets the read deadline to
`now + ReadDeadline` when the read timeout is nonzero, and disables the
deadline when it is zero.  The read timeout is `second * k` for the
configured whole number of seconds `k`, exactly as `OnOpen` initialises
`c.ReadDeadline`. -/
theorem C9_pongHandler_read_deadline (now : Int) (k : Nat) (conn : Conn) :
    (k ≠ 0 → pongHandler now (second * k) conn
        = { conn with readDeadline := some (now + second * k) })
    ∧ (k = 0 → pongHandler now (second * k) conn
        = { conn with readDeadline := none }) := by
  constructor
  · intro hk
    have h1 : (1 : Int) ≤ k := by exact_mod_cast Nat.one_le_iff_ne_zero.mpr hk
    have h : second * (k : Int) > nanosecond := by
      simp only [second, nanosecond]
      nlinarith
    simp [pongHandler, h]
  · intro hk
    subst hk
    simp [pongHandler, second, nanosecond]

/-- Witness for C9 at read timeouts of 3 seconds and 0 seconds. -/
theorem C9_pongHandler_witness :
    pongHandler 11 (second * (3 : Nat)) connSample
        = { connSample with readDeadline := some (11 + second * (3 : Nat)) }
    ∧ pongHandler 11 (second * (0 : Nat)) connSample
        = { connSample with readDeadline := none } :=
  ⟨(C9_pongHandler_read_deadline 11 3 connSample).1 (by decide),
   (C9_pongHandler_read_deadline 11 0 connSample).2 rfl⟩

/-- A sample configuration used by concrete witnesses. -/
def cfgSample : Config := ⟨256, 20, 100, 35, 4, 65535⟩

/-- A zero-valued receiver, as `OnOpen` is called on a fresh `&Client{}`. -/
def cFresh : Client := ⟨false, none, 0, 0, 0, 0, 0, ⟨"", ""⟩⟩

/-- Characterisation of `OnOpen` when the protocol upgrade succeeds: the
returned client carries the configured fields and `State = 1`, the call
reports success, the registration queue grew by one, and the transport
carries the handshake frame exactly when the handshake write succeeded. -/
theorem onOpen_upgrade_ok_eq (c : Client) (cfg : Config) (now : Int)
    (o : UpgradeOracle) (n : Nat) (hup : o.upgradeErr = none) :
    c.OnOpen cfg now o n =
      ⟨some { c with
                Hub := true
                Send := some cfg.BufferSize
                PingPeriod := second * cfg.PingPeriod
                ReadDeadline := second * cfg.ReadDeadline
                WriteDeadline := second * cfg.WriteDeadline
                State := 1 },
       true,
       some { writeDeadline :=
                if o.handshakeWrite.setDeadlineErr = none then
                  some (now + second * cfg.WriteDeadline)
                else none
              readDeadline := none
              readLimit := some cfg.MaxMessageSize
              frames :=
                if o.handshakeWrite.setDeadlineErr = none
                    ∧ o.handshakeWrite.writeErr = none then
                  [(TextMessage, WebsocketHandshakeSuccess)]
                else [] },
       n + 1⟩ := by
  cases hd : o.handshakeWrite.setDeadlineErr with
  | some e => simp [Client.OnOpen, Client.SendMessage, freshConn, hup, hd]
  | none =>
    cases hw : o.handshakeWrite.writeErr with
    | some e => simp [Client.OnOpen, Client.SendMessage, freshConn, hup, hd, hw]
    | none => simp [Client.OnOpen, Client.SendMessage, freshConn, hup, hd, hw]

/-- Claim C1, counterexample: with a succeeding upgrade but a failing
handshake write (`oWriteFail`), `OnOpen` still returns a Client
(`client.isSome`, `ok = true`) and still enqueues a registration
(`registerCount` goes 0 → 1), while the handshake frame was indeed never
written; the claim says no Client is returned and no registration occurs. -/
theorem C1_onOpen_write_failure_counterexample :
    (cFresh.OnOpen cfgSample 0 ⟨none, ⟨none, some (.transport 3)⟩⟩ 0).client.isSome
        = true
    ∧ (cFresh.OnOpen cfgSample 0 ⟨none, ⟨none, some (.transport 3)⟩⟩ 0).ok = true
    ∧ (cFresh.OnOpen cfgSample 0 ⟨none, ⟨none, some (.transport 3)⟩⟩ 0).registerCount
        = 1
    ∧ (cFresh.OnOpen cfgSample 0 ⟨none, ⟨none, some (.transport 3)⟩⟩ 0).conn.map
        Conn.frames = some [] := by
  decide

/-- Claim C1 as amended: if the handshake acknowledgement cannot be written
during `OnOpen` (after a successful upgrade), the failure is only logged:
`OnOpen` still returns a Client, still reports success, still enqueues the
registration with the Hub, and no handshake frame reaches the transport. -/
theorem C1_onOpen_write_failure_still_registers (c : Client) (cfg : Config)
    (now : Int) (o : UpgradeOracle) (n : Nat) (hup : o.upgradeErr = none)
    (hfail : o.handshakeWrite.setDeadlineErr ≠ none
             ∨ o.handshakeWrite.writeErr ≠ none) :
    (c.OnOpen cfg now o n).ok = true
    ∧ (c.OnOpen cfg now o n).client.isSome = true
    ∧ (c.OnOpen cfg now o n).registerCount = n + 1
    ∧ (c.OnOpen cfg now o n).conn.map Conn.frames = some [] := by
  rw [onOpen_upgrade_ok_eq c cfg now o n hup]
  refine ⟨rfl, rfl, rfl, ?_⟩
  rcases hfail with h | h <;> simp [h]

/-- Witness for C1 at a concrete input: failing-write oracle `failPing`. -/
theorem C1_onOpen_write_failure_witness :
    (cFresh.OnOpen cfgSample 0 ⟨none, failPing⟩ 5).ok = true
    ∧ (cFresh.OnOpen cfgSample 0 ⟨none, failPing⟩ 5).client.isSome = true
    ∧ (cFresh.OnOpen cfgSample 0 ⟨none, failPing⟩ 5).registerCount = 5 + 1
    ∧ (cFresh.OnOpen cfgSample 0 ⟨none, failPing⟩ 5).conn.map Conn.frames
        = some [] :=
  C1_onOpen_write_failure_still_registers cFresh cfgSample 0 ⟨none, failPing⟩ 5
    rfl (Or.inr (by decide))

/-- Claim C7, counterexample: with a succeeding upgrade but a failing
deadline call inside the handshake `SendMessage`, `OnOpen` reports success
yet the handshake-acknowledgement frame was never written to the
transport; the claim says a successful `OnOpen` has already sent it. -/
theorem C7_onOpen_ack_not_sent_counterexample :
    (cFresh.OnOpen cfgSample 0 ⟨none, ⟨some (.transport 2), none⟩⟩ 0).ok = true
    ∧ (cFresh.OnOpen cfgSample 0 ⟨none, ⟨some (.transport 2), none⟩⟩ 0).client.isSome
        = true
    ∧ (cFresh.OnOpen cfgSample 0 ⟨none, ⟨some (.transport 2), none⟩⟩ 0).conn.map
        Conn.frames = some [] := by
  decide

/-- Claim C7 as amended: on a successful upgrade, `OnOpen` returns a Client
with `State` Active, an outbox allocated with capacity `BufferSize`,
durations initialised from configuration, the Hub reference set, the
transport read-size limit configured, and the registration enqueued before
returning; the handshake-acknowledgement frame is attempted, and is on the
transport whenever its write succeeded (a write failure is only logged). -/
theorem C7_onOpen_success_fields (c : Client) (cfg : Config) (now : Int)
    (o : UpgradeOracle) (n : Nat) (hup : o.upgradeErr = none) :
    (c.OnOpen cfg now o n).ok = true
    ∧ (c.OnOpen cfg now o n).registerCount = n + 1
    ∧ (c.OnOpen cfg now o n).client.map Client.State = some 1
    ∧ (c.OnOpen cfg now o n).client.map Client.Send = some (some cfg.BufferSize)
    ∧ (c.OnOpen cfg now o n).client.map Client.PingPeriod
        = some (second * cfg.PingPeriod)
    ∧ (c.OnOpen cfg now o n).client.map Client.ReadDeadline
        = some (second * cfg.ReadDeadline)
    ∧ (c.OnOpen cfg now o n).client.map Client.WriteDeadline
        = some (second * cfg.WriteDeadline)
    ∧ (c.OnOpen cfg now o n).client.map Client.Hub = some true
    ∧ (c.OnOpen cfg now o n).conn.map Conn.readLimit
        = some (some (cfg.MaxMessageSize : Int))
    ∧ (o.handshakeWrite = okPing →
        (c.OnOpen cfg now o n).conn.map Conn.frames
          = some [(TextMessage, WebsocketHandshakeSuccess)]) := by
  rw [onOpen_upgrade_ok_eq c cfg now o n hup]
  refine ⟨rfl, rfl, rfl, rfl, rfl, rfl, rfl, rfl, rfl, ?_⟩
  intro hok
  simp [hok, okPing]

/-- Witness for C7 at a concrete input: succeeding upgrade and handshake. -/
theorem C7_onOpen_success_witness :
    (cFresh.OnOpen cfgSample 3 ⟨none, okPing⟩ 0).ok = true
    ∧ (cFresh.OnOpen cfgSample 3 ⟨none, okPing⟩ 0).registerCount = 0 + 1
    ∧ (cFresh.OnOpen cfgSample 3 ⟨none, okPing⟩ 0).client.map Client.State = some 1
    ∧ (cFresh.OnOpen cfgSample 3 ⟨none, okPing⟩ 0).client.map Client.Send
        = some (some cfgSample.BufferSize)
    ∧ (cFresh.OnOpen cfgSample 3 ⟨none, okPing⟩ 0).client.map Client.PingPeriod
        = some (second * cfgSample.PingPeriod)
    ∧ (cFresh.OnOpen cfgSample 3 ⟨none, okPing⟩ 0).client.map Client.ReadDeadline
        = some (second * cfgSample.ReadDeadline)
    ∧ (cFresh.OnOpen cfgSample 3 ⟨none, okPing⟩ 0).client.map Client.WriteDeadline
        = some (second * cfgSample.WriteDeadline)
    ∧ (cFresh.OnOpen cfgSample 3 ⟨none, okPing⟩ 0).client.map Client.Hub = some true
    ∧ (cFresh.OnOpen cfgSample 3 ⟨none, okPing⟩ 0).conn.map Conn.readLimit
        = some (some (cfgSample.MaxMessageSize : Int))
    ∧ (cFresh.OnOpen cfgSample 3 ⟨none, okPing⟩ 0).conn.map Conn.frames
        = some [(TextMessage, WebsocketHandshakeSuccess)] := by
  have h := C7_onOpen_success_fields cFresh cfgSample 3 ⟨none, okPing⟩ 0 rfl
  exact ⟨h.1, h.2.1, h.2.2.1, h.2.2.2.1, h.2.2.2.2.1, h.2.2.2.2.2.1,
    h.2.2.2.2.2.2.1, h.2.2.2.2.2.2.2.1, h.2.2.2.2.2.2.2.2.1,
    h.2.2.2.2.2.2.2.2.2 rfl⟩

/-- The loop body of `ReadPump` never emits `onClose` itself: only the
deferred handler does. -/
theorem readLoop_no_onClose (inputs : List RPInput) :
    Event.onClose ∉ (readLoop inputs).1 := by
  induction inputs with
  | nil => simp [readLoop]
  | cons i rest ih =>
    obtain ⟨sa, rd, rp, cp⟩ := i
    cases sa <;> cases rp <;> cases cp <;> cases rd <;> simp_all [readLoop]

/-- Claim C3: on every exit of the `ReadPump` loop — normal break after a
read error or a state-invalid check, or a panic inside the loop body or a
callback — `onClose` is invoked exactly once (it is appended as the final
event and occurs nowhere else), and the recovered panic is not re-raised:
`ReadPump` returns its event list for panicking traces just as for
breaking ones, only recording the exit kind. -/
theorem C3_readPump_onClose_once (inputs : List RPInput)
    (h : (readLoop inputs).2 ≠ .pending) :
    (ReadPump inputs).1 = (readLoop inputs).1 ++ [Event.onClose]
    ∧ Event.onClose ∉ (readLoop inputs).1
    ∧ (ReadPump inputs).2 = (readLoop inputs).2 := by
  refine ⟨?_, readLoop_no_onClose inputs, ?_⟩ <;>
    · unfold ReadPump
      cases hr : (readLoop inputs).2 with
      | pending => exact absurd hr h
      | terminated => simp [hr]
      | panicked => simp [hr]

/-- Witness for C3 on a concrete trace: one frame, then a read error, then
(separately) a trace ending in a callback panic. -/
theorem C3_readPump_onClose_once_witness :
    (ReadPump [frameInput (1, "a"), errInput (.transport 5)]).1
        = (readLoop [frameInput (1, "a"), errInput (.transport 5)]).1
            ++ [Event.onClose]
    ∧ Event.onClose ∉ (readLoop [frameInput (1, "a"), errInput (.transport 5)]).1
    ∧ (ReadPump [frameInput (1, "a"), errInput (.transport 5)]).2
        = (readLoop [frameInput (1, "a"), errInput (.transport 5)]).2 :=
  C3_readPump_onClose_once [frameInput (1, "a"), errInput (.transport 5)]
    (by decide)

/-- Peeling one successfully handled frame off the front of the loop. -/
theorem readLoop_frame_cons (p : Int × String) (l : List RPInput) :
    readLoop (frameInput p :: l)
      = (Event.onMessage p.1 p.2 :: (readLoop l).1, (readLoop l).2) := by
  simp [readLoop, frameInput]

/-- Claim C6: while `State` is Active each successfully read frame causes
exactly one synchronous `onMessage` invocation, in reading order, before
the next read; a read error causes one `onError(err)` and terminates the
loop; a state-invalid check at loop entry causes one
`onError(stateInvalid)` and terminates the loop. -/
theorem C6_readLoop_events (frames : List (Int × String)) (e : GoError)
    (i : RPInput) (rest : List RPInput)
    (hinact : i.stateActive = false) (hnp : i.callbackPanics = false) :
    readLoop (frames.map frameInput ++ [errInput e])
      = (frames.map (fun p => Event.onMessage p.1 p.2) ++ [Event.onError e],
         .terminated)
    ∧ readLoop (i :: rest) = ([Event.onError .stateInvalid], .terminated) := by
  constructor
  · induction frames with
    | nil => simp [readLoop, errInput]
    | cons p ps ih =>
      rw [List.map_cons, List.cons_append, readLoop_frame_cons, ih]
      simp
  · simp [readLoop, hinact, hnp]

/-- Witness for C6 on concrete traces: two frames then a read error, and a
loop entered with `State != 1`. -/
theorem C6_readLoop_events_witness :
    readLoop ([((1 : Int), "a"), ((2 : Int), "b")].map frameInput
        ++ [errInput (.transport 4)])
      = ([Event.onMessage 1 "a", Event.onMessage 2 "b",
          Event.onError (.transport 4)], .terminated)
    ∧ readLoop (RPInput.mk false (.readErr (.transport 0)) false false
        :: [frameInput (1, "c")])
      = ([Event.onError .stateInvalid], .terminated) := by
  have h := C6_readLoop_events [((1 : Int), "a"), ((2 : Int), "b")]
    (.transport 4) (RPInput.mk false (.readErr (.transport 0)) false false)
    [frameInput (1, "c")] rfl rfl
  exact ⟨h.1.trans (by decide), h.2⟩

/-- Method `SendMessage` never modifies the Client record. -/
theorem sendMessage_client_unchanged (c : Client) (conn : Conn) (now : Int)
    (o : WriteOracle) (mt : Int) (msg : String) :
    (c.SendMessage conn now o mt msg).1 = c := by
  cases hd : o.setDeadlineErr with
  | some e => simp [Client.SendMessage, hd]
  | none => cases hw : o.writeErr <;> simp [Client.SendMessage, hd, hw]

/-- A heartbeat tick on an Active client with a failing ping, below the
closing threshold: the counter goes up by one and the loop continues. -/
theorem heartbeatTick_fail_below (maxFail now : Int) (c : Client)
    (conn : Conn) (hs : c.State = 1)
    (hf : ¬ c.HeartbeatFailTimes + 1 > maxFail) :
    heartbeatTick maxFail now c conn failPing
      = ⟨{ c with HeartbeatFailTimes := c.HeartbeatFailTimes + 1 },
         { conn with writeDeadline := some (now + c.WriteDeadline) },
         true, 1⟩ := by
  simp [heartbeatTick, Client.SendMessage, failPing, hs, hf]

/-- A heartbeat tick on an Active client with a failing ping, crossing the
closing threshold: `State` is set 0 and the loop exits. -/
theorem heartbeatTick_fail_close (maxFail now : Int) (c : Client)
    (conn : Conn) (hs : c.State = 1)
    (hf : c.HeartbeatFailTimes + 1 > maxFail) :
    heartbeatTick maxFail now c conn failPing
      = ⟨{ c with
             HeartbeatFailTimes := c.HeartbeatFailTimes + 1
             State := 0 },
         { conn with writeDeadline := some (now + c.WriteDeadline) },
         false, 1⟩ := by
  simp [heartbeatTick, Client.SendMessage, failPing, hs, hf]

/-- A heartbeat tick on an Active client with a succeeding ping: the
counter goes down by one when positive, else stays, and the loop
continues. -/
theorem heartbeatTick_ok (maxFail now : Int) (c : Client) (conn : Conn)
    (hs : c.State = 1) :
    heartbeatTick maxFail now c conn okPing
      = ⟨if 0 < c.HeartbeatFailTimes then
           { c with HeartbeatFailTimes := c.HeartbeatFailTimes - 1 }
         else c,
         { conn with
             writeDeadline := some (now + c.WriteDeadline)
             frames := conn.frames
               ++ [(PingMessage, WebsocketServerPingMsg)] },
         true, 1⟩ := by
  by_cases hf : 0 < c.HeartbeatFailTimes <;>
    simp [heartbeatTick, Client.SendMessage, okPing, hs, hf]

/-- Unfolding one loop iteration whose tick continues. -/
theorem heartbeatRun_cons_of_tick (maxFail now : Int) (c c2 : Client)
    (conn conn2 : Conn) (o : WriteOracle) (rest : List WriteOracle) (p : Nat)
    (h : heartbeatTick maxFail now c conn o = ⟨c2, conn2, true, p⟩) :
    heartbeatRun maxFail now c conn (o :: rest)
      = ⟨(heartbeatRun maxFail now c2 conn2 rest).client,
         (heartbeatRun maxFail now c2 conn2 rest).conn,
         p + (heartbeatRun maxFail now c2 conn2 rest).pings⟩ := by
  simp [heartbeatRun, h]

/-- Unfolding one loop iteration whose tick exits: the remaining trace is
not consumed. -/
theorem heartbeatRun_cons_exit_of_tick (maxFail now : Int) (c c2 : Client)
    (conn conn2 : Conn) (o : WriteOracle) (rest : List WriteOracle) (p : Nat)
    (h : heartbeatTick maxFail now c conn o = ⟨c2, conn2, false, p⟩) :
    heartbeatRun maxFail now c conn (o :: rest) = ⟨c2, conn2, p⟩ := by
  simp [heartbeatRun, h]

/-- Running `j` consecutive failing pings that all stay at or below the
threshold: the loop survives Active, the counter grows by exactly `j`,
`j` pings were attempted, and a remaining trace continues from the
advanced client. -/
theorem heartbeatRun_fail_append (maxFail now : Int) :
    ∀ (j : Nat) (c : Client) (conn : Conn) (rest : List WriteOracle),
      c.State = 1 → c.HeartbeatFailTimes + j ≤ maxFail →
      ∃ (c2 : Client) (conn2 : Conn),
        c2.State = 1
        ∧ c2.HeartbeatFailTimes = c.HeartbeatFailTimes + j
        ∧ c2.WriteDeadline = c.WriteDeadline
        ∧ heartbeatRun maxFail now c conn (List.replicate j failPing ++ rest)
            = ⟨(heartbeatRun maxFail now c2 conn2 rest).client,
               (heartbeatRun maxFail now c2 conn2 rest).conn,
               j + (heartbeatRun maxFail now c2 conn2 rest).pings⟩
  | 0, c, conn, rest, hs, hj => by
    refine ⟨c, conn, hs, by simp, rfl, ?_⟩
    simp
  | (j + 1), c, conn, rest, hs, hj => by
    have hblw : ¬ c.HeartbeatFailTimes + 1 > maxFail := by
      push_cast at hj
      omega
    obtain ⟨c2, conn2, h1, h2, h3, hrec⟩ := heartbeatRun_fail_append maxFail now j
      { c with HeartbeatFailTimes := c.HeartbeatFailTimes + 1 }
      { conn with writeDeadline := some (now + c.WriteDeadline) } rest hs
      (by
        show c.HeartbeatFailTimes + 1 + (j : Int) ≤ maxFail
        push_cast at hj
        omega)
    have h2n : c2.HeartbeatFailTimes = c.HeartbeatFailTimes + 1 + (j : Int) := h2
    refine ⟨c2, conn2, h1, by push_cast; omega, h3, ?_⟩
    rw [List.replicate_succ, List.cons_append,
      heartbeatRun_cons_of_tick maxFail now c _ conn _ failPing _ 1
        (heartbeatTick_fail_below maxFail now c conn hs hblw)]
    rw [hrec]
    simp only [HBRun.mk.injEq, true_and]
    show 1 + (j + (heartbeatRun maxFail now c2 conn2 rest).pings)
      = (j + 1) + (heartbeatRun maxFail now c2 conn2 rest).pings
    omega

/-- A heartbeat tick never drives the failure counter negative. -/
theorem heartbeatTick_nonneg (maxFail now : Int) (c : Client) (conn : Conn)
    (o : WriteOracle) (h : 0 ≤ c.HeartbeatFailTimes) :
    0 ≤ (heartbeatTick maxFail now c conn o).client.HeartbeatFailTimes := by
  by_cases hs : c.State = 1
  · cases hd : o.setDeadlineErr with
    | some e =>
      by_cases hf : c.HeartbeatFailTimes + 1 > maxFail <;>
        simp [heartbeatTick, Client.SendMessage, hs, hd, hf] <;> omega
    | none =>
      cases hw : o.writeErr with
      | some e =>
        by_cases hf : c.HeartbeatFailTimes + 1 > maxFail <;>
          simp [heartbeatTick, Client.SendMessage, hs, hd, hw, hf] <;> omega
      | none =>
        by_cases hf : c.HeartbeatFailTimes > 0 <;>
          simp [heartbeatTick, Client.SendMessage, hs, hd, hw, hf] <;> omega
  · simp [heartbeatTick, hs, h]

/-- The heartbeat loop never drives the failure counter negative. -/
theorem heartbeatRun_nonneg (maxFail now : Int) :
    ∀ (l : List WriteOracle) (c : Client) (conn : Conn),
      0 ≤ c.HeartbeatFailTimes →
      0 ≤ (heartbeatRun maxFail now c conn l).client.HeartbeatFailTimes
  | [], _, _, h => h
  | o :: rest, c, conn, h => by
    rcases htick : heartbeatTick maxFail now c conn o with ⟨c2, conn2, lp, p⟩
    have hnn : 0 ≤ c2.HeartbeatFailTimes := by
      have hh := heartbeatTick_nonneg maxFail now c conn o h
      rw [htick] at hh
      exact hh
    cases lp with
    | true =>
      rw [heartbeatRun_cons_of_tick maxFail now c c2 conn conn2 o rest p htick]
      exact heartbeatRun_nonneg maxFail now rest c2 conn2 hnn
    | false =>
      rw [heartbeatRun_cons_exit_of_tick maxFail now c c2 conn conn2 o rest p htick]
      exact hnn

/-- Claim C2 as amended: starting a heartbeat run with counter 0 and
`maxFail = k`, (a) after exactly `k + 1` consecutive failed pings the
state becomes Closed and the loop exits, attempting no further pings
whatever the remaining trace holds; (a-exactness) after at most `k`
consecutive failures the state is still Active; (b) after `k − 1`
consecutive failures followed by one successful ping the counter has
decreased by 1 (to `k − 2`) and the state remains Active, provided
`k ≥ 2` — for `k = 1` the counter is already 0 before the success and the
floor keeps it at 0; and (c) the counter never becomes negative. -/
theorem C2_heartbeat_threshold (k : Nat) (now : Int) (c : Client)
    (conn : Conn) (hs : c.State = 1) (hf0 : c.HeartbeatFailTimes = 0) :
    (∀ rest : List WriteOracle,
      (heartbeatRun k now c conn
        (List.replicate (k + 1) failPing ++ rest)).client.State = 0
      ∧ (heartbeatRun k now c conn
          (List.replicate (k + 1) failPing ++ rest)).pings = k + 1)
    ∧ (∀ j : Nat, j ≤ k →
        (heartbeatRun k now c conn (List.replicate j failPing)).client.State
          = 1)
    ∧ (2 ≤ k →
        (heartbeatRun k now c conn
          (List.replicate (k - 1) failPing ++ [okPing])).client.State = 1
        ∧ (heartbeatRun k now c conn
            (List.replicate (k - 1) failPing
              ++ [okPing])).client.HeartbeatFailTimes = (k : Int) - 2)
    ∧ (∀ (mf now2 : Int) (l : List WriteOracle) (c3 : Client) (conn3 : Conn),
        0 ≤ c3.HeartbeatFailTimes →
        0 ≤ (heartbeatRun mf now2 c3 conn3 l).client.HeartbeatFailTimes) := by
  refine ⟨?_, ?_, ?_, ?_⟩
  · intro rest
    obtain ⟨c2, conn2, h1, h2, h3, heq⟩ := heartbeatRun_fail_append k now k c
      conn (failPing :: rest) hs (by rw [hf0]; omega)
    have hclose : c2.HeartbeatFailTimes + 1 > (k : Int) := by
      rw [h2, hf0]
      omega
    have htick := heartbeatTick_fail_close (k : Int) now c2 conn2 h1 hclose
    have hcons := heartbeatRun_cons_exit_of_tick (k : Int) now c2 _ conn2 _
      failPing rest 1 htick
    have hsplit : List.replicate (k + 1) failPing ++ rest
        = List.replicate k failPing ++ (failPing :: rest) := by
      rw [List.replicate_succ']
      simp
    rw [hsplit, heq, hcons]
    exact ⟨rfl, rfl⟩
  · intro j hj
    obtain ⟨c2, conn2, h1, h2, h3, heq⟩ := heartbeatRun_fail_append k now j c
      conn [] hs (by rw [hf0]; omega)
    rw [List.append_nil] at heq
    rw [heq]
    exact h1
  · intro hk2
    obtain ⟨c2, conn2, h1, h2, h3, heq⟩ := heartbeatRun_fail_append k now
      (k - 1) c conn [okPing] hs (by rw [hf0]; omega)
    have h2v : c2.HeartbeatFailTimes = (k : Int) - 1 := by
      rw [h2, hf0]
      omega
    have hpos : 0 < c2.HeartbeatFailTimes := by omega
    have htick := heartbeatTick_ok (k : Int) now c2 conn2 h1
    rw [if_pos hpos] at htick
    have hcons := heartbeatRun_cons_of_tick (k : Int) now c2 _ conn2 _ okPing
      [] 1 htick
    rw [heq, hcons]
    refine ⟨h1, ?_⟩
    show c2.HeartbeatFailTimes - 1 = (k : Int) - 2
    omega
  · intro mf now2 l c3 conn3 h3n
    exact heartbeatRun_nonneg mf now2 l c3 conn3 h3n

/-- Claim C2, counterexample to the decrement clause: with
`maxFailures = 1`, after `maxFailures − 1 = 0` consecutive failures the
counter is 0; one successful ping leaves it at 0 (the decrement is
floored), so it does not decrease by 1 — a decrease would make it −1,
which also contradicts the claim's own non-negativity clause. -/
theorem C2_decrement_floor_counterexample :
    (heartbeatRun 1 0 cSample connSample
        (List.replicate (1 - 1) failPing ++ [okPing])).client.HeartbeatFailTimes
      = 0
    ∧ ((0 : Int) ≠ 0 - 1) := by
  decide

/-- Witness for C2 at `k = 3` from a fresh Active client. -/
theorem C2_heartbeat_threshold_witness :
    ((heartbeatRun 3 0 cSample connSample
        (List.replicate (3 + 1) failPing ++ [])).client.State = 0
      ∧ (heartbeatRun 3 0 cSample connSample
          (List.replicate (3 + 1) failPing ++ [])).pings = 3 + 1)
    ∧ (heartbeatRun 3 0 cSample connSample
        (List.replicate 2 failPing)).client.State = 1
    ∧ ((heartbeatRun 3 0 cSample connSample
        (List.replicate (3 - 1) failPing ++ [okPing])).client.State = 1
      ∧ (heartbeatRun 3 0 cSample connSample
          (List.replicate (3 - 1) failPing
            ++ [okPing])).client.HeartbeatFailTimes = (3 : Int) - 2)
    ∧ 0 ≤ (heartbeatRun 5 0 cSample connSample
        [failPing, okPing, okPing]).client.HeartbeatFailTimes := by
  have h := C2_heartbeat_threshold 3 0 cSample connSample rfl rfl
  exact ⟨h.1 [], h.2.1 2 (by omega), h.2.2.1 (by omega),
    h.2.2.2 5 0 [failPing, okPing, okPing] cSample connSample (by decide)⟩

/-- A heartbeat tick either leaves `State` unchanged or sets it to 0. -/
theorem heartbeatTick_state (maxFail now : Int) (c : Client) (conn : Conn)
    (o : WriteOracle) :
    (heartbeatTick maxFail now c conn o).client.State = c.State
    ∨ (heartbeatTick maxFail now c conn o).client.State = 0 := by
  by_cases hs : c.State = 1
  · cases hd : o.setDeadlineErr with
    | some e =>
      by_cases hf : c.HeartbeatFailTimes + 1 > maxFail <;>
        simp [heartbeatTick, Client.SendMessage, hs, hd, hf]
    | none =>
      cases hw : o.writeErr with
      | some e =>
        by_cases hf : c.HeartbeatFailTimes + 1 > maxFail <;>
          simp [heartbeatTick, Client.SendMessage, hs, hd, hw, hf]
      | none =>
        by_cases hf : c.HeartbeatFailTimes > 0 <;>
          simp [heartbeatTick, Client.SendMessage, hs, hd, hw, hf]
  · simp [heartbeatTick, hs]

/-- Once `State` is 0, no loop step revives it. -/
theorem clientStep_state_closed (maxFail now : Int) (s : Client × Conn)
    (i : StepInput) (h : s.1.State = 0) :
    (clientStep maxFail now s i).1.State = 0 := by
  cases i with
  | hbTick o => simp [clientStep, heartbeatTick, h]
  | readIter => exact h
  | send o mt msg => simp [clientStep, sendMessage_client_unchanged, h]
  | pong => exact h

/-- Any loop step either leaves `State` unchanged or sets it to 0. -/
theorem clientStep_state_or (maxFail now : Int) (s : Client × Conn)
    (i : StepInput) :
    (clientStep maxFail now s i).1.State = s.1.State
    ∨ (clientStep maxFail now s i).1.State = 0 := by
  cases i with
  | hbTick o => exact heartbeatTick_state maxFail now s.1 s.2 o
  | readIter => exact Or.inl rfl
  | send o mt msg =>
    exact Or.inl (by simp [clientStep, sendMessage_client_unchanged])
  | pong => exact Or.inl rfl

/-- A trajectory always starts with the initial `State`. -/
theorem stateTraj_head (maxFail now : Int) (s : Client × Conn) :
    ∀ l : List StepInput, ∃ t, stateTraj maxFail now s l = s.1.State :: t
  | [] => ⟨[], rfl⟩
  | i :: l => ⟨stateTraj maxFail now (clientStep maxFail now s i) l, rfl⟩

/-- From a Closed state the trajectory has no Active→Closed transition. -/
theorem activeToClosed_of_closed (maxFail now : Int) :
    ∀ (l : List StepInput) (s : Client × Conn), s.1.State = 0 →
      activeToClosed (stateTraj maxFail now s l) = 0
  | [], s, h => by simp [stateTraj, activeToClosed]
  | i :: l, s, h => by
    have hnext := clientStep_state_closed maxFail now s i h
    obtain ⟨t, ht⟩ := stateTraj_head maxFail now (clientStep maxFail now s i) l
    have hrec := activeToClosed_of_closed maxFail now l
      (clientStep maxFail now s i) hnext
    rw [ht, hnext] at hrec
    show activeToClosed
      (s.1.State :: stateTraj maxFail now (clientStep maxFail now s i) l) = 0
    rw [ht, h, hnext]
    simp [activeToClosed, hrec]

/-- From an Active state the trajectory has at most one Active→Closed
transition. -/
theorem activeToClosed_le_one (maxFail now : Int) :
    ∀ (l : List StepInput) (s : Client × Conn), s.1.State = 1 →
      activeToClosed (stateTraj maxFail now s l) ≤ 1
  | [], s, h => by simp [stateTraj, activeToClosed]
  | i :: l, s, h => by
    obtain ⟨t, ht⟩ := stateTraj_head maxFail now (clientStep maxFail now s i) l
    show activeToClosed
      (s.1.State :: stateTraj maxFail now (clientStep maxFail now s i) l) ≤ 1
    rw [ht, h]
    rcases clientStep_state_or maxFail now s i with hn | hn
    · rw [h] at hn
      have hrec := activeToClosed_le_one maxFail now l
        (clientStep maxFail now s i) hn
      rw [ht, hn] at hrec
      rw [hn]
      simpa [activeToClosed] using hrec
    · have hrec := activeToClosed_of_closed maxFail now l
        (clientStep maxFail now s i) hn
      rw [ht, hn] at hrec
      rw [hn]
      simp [activeToClosed, hrec]

/-- Running a concatenation of step lists runs them in sequence. -/
theorem runSteps_append (maxFail now : Int) :
    ∀ (l1 l2 : List StepInput) (s : Client × Conn),
      runSteps maxFail now s (l1 ++ l2)
        = runSteps maxFail now (runSteps maxFail now s l1) l2
  | [], _, _ => rfl
  | i :: l1, l2, s => by
    show runSteps maxFail now (clientStep maxFail now s i) (l1 ++ l2) = _
    rw [runSteps_append maxFail now l1 l2 (clientStep maxFail now s i)]
    rfl

/-- Once Closed, every continuation of the run stays Closed. -/
theorem runSteps_closed (maxFail now : Int) :
    ∀ (l : List StepInput) (s : Client × Conn), s.1.State = 0 →
      (runSteps maxFail now s l).1.State = 0
  | [], _, h => h
  | i :: l, s, h =>
    runSteps_closed maxFail now l _ (clientStep_state_closed maxFail now s i h)

/-- Claim C8: along any sequence of steps of the Client's loops (heartbeat
ticks, read-loop iterations, sends, pong handling) from an Active client,
the `State` makes at most one Active→Closed transition, and once Closed it
never returns to Active (any extension of a run that reached Closed is
still Closed). -/
theorem C8_active_closed_once (maxFail now : Int) (c : Client) (conn : Conn)
    (l l1 l2 : List StepInput) (h : c.State = 1) :
    activeToClosed (stateTraj maxFail now (c, conn) l) ≤ 1
    ∧ ((runSteps maxFail now (c, conn) l1).1.State = 0 →
        (runSteps maxFail now (c, conn) (l1 ++ l2)).1.State = 0) := by
  constructor
  · exact activeToClosed_le_one maxFail now l (c, conn) h
  · intro h0
    rw [runSteps_append]
    exact runSteps_closed maxFail now l2 _ h0

/-- Witness for C8: two heartbeat ticks, with `maxFail = 0` so the first
failing tick closes the client. -/
theorem C8_active_closed_once_witness :
    activeToClosed (stateTraj 0 0 (cSample, connSample)
        [.hbTick failPing, .hbTick okPing]) ≤ 1
    ∧ ((runSteps 0 0 (cSample, connSample) [.hbTick failPing]).1.State = 0 →
        (runSteps 0 0 (cSample, connSample)
          ([.hbTick failPing] ++ [.hbTick okPing])).1.State = 0) :=
  C8_active_closed_once 0 0 cSample connSample
    [.hbTick failPing, .hbTick okPing] [.hbTick failPing] [.hbTick okPing] rfl

/-- Claim C4, counterexample: `maxFail = 0`; the trace enqueues the
registration (client.go:80), the Hub registry actor processes it, `OnOpen`
sets `State = 1` (client.go:81), and one failing heartbeat tick then sets
`State = 0` (client.go:176) without touching the registry.  The resulting
state has the client in `clients`, registration completed, unregistration
not completed — yet `State` is Closed, contradicting the claimed
iff-invariant at an observable point. -/
theorem C4_membership_counterexample :
    (sysRun 0 sysInit [.enqueueRegister, .hubProcessRegister, .setActive,
        .hbTick false]).inClients = true
    ∧ (sysRun 0 sysInit [.enqueueRegister, .hubProcessRegister, .setActive,
        .hbTick false]).registered = true
    ∧ (sysRun 0 sysInit [.enqueueRegister, .hubProcessRegister, .setActive,
        .hbTick false]).unregistered = false
    ∧ (sysRun 0 sysInit [.enqueueRegister, .hubProcessRegister, .setActive,
        .hbTick false]).clientState = 0 := by
  decide

/-- Claim C4 as amended: membership in `clients` and the Client's `State`
are updated by different actors and not kept in step: a heartbeat tick
never changes membership, registration or unregistration status (so after
a heartbeat-driven close the client stays in the set until unregistration
is processed), and the Hub's register/unregister processing and `OnOpen`'s
registration enqueue never change `State` (so a client can be in the set
before `State` is set Active). -/
theorem C4_membership_state_decoupled (maxFail : Int) (s : SysState)
    (pingOk : Bool) :
    ((sysStep maxFail s (.hbTick pingOk)).inClients = s.inClients
     ∧ (sysStep maxFail s (.hbTick pingOk)).registered = s.registered
     ∧ (sysStep maxFail s (.hbTick pingOk)).unregistered = s.unregistered)
    ∧ (sysStep maxFail s .hubProcessRegister).clientState = s.clientState
    ∧ (sysStep maxFail s .hubProcessUnregister).clientState = s.clientState
    ∧ (sysStep maxFail s .enqueueRegister).clientState = s.clientState
    ∧ (sysStep maxFail s .enqueueRegister).inClients = s.inClients := by
  refine ⟨⟨?_, ?_, ?_⟩, ?_, ?_, ?_, ?_⟩ <;>
    simp only [sysStep] <;> split_ifs <;> rfl

end Gophrame.Websocket
